import Mathlib

/-!
Shallow embedding of `ichorCNA_workflow.py`: a generator that compiles a YAML
configuration into an SBATCH job-array script.  The `generate` command loads the
configuration, normalizes the three workflow directory paths, creates the output
and log directories, enumerates `*.bam` files from the input directory (sorted),
enforces the emptiness and `max_queue` bounds, writes the list artifact and the
rendered script, and exits 0 on success or 2 on any caught failure.

The filesystem is modelled explicitly: the directory listing of the input
directory is a list of entry names, and the side effects of a run are recorded
as an ordered trace of `mkdir`/`write` events.
-/

namespace Ichor

/-- Python `str.rstrip("/")`: removes every trailing slash. -/
def rstripSlashes (s : String) : String :=
  ⟨(s.data.reverse.dropWhile (fun c => c = '/')).reverse⟩

/-- Split of a character list at every occurrence of `sep`, Python
`str.split(sep)` style: the empty list splits to one empty field. -/
def splitOnChar (sep : Char) : List Char → List (List Char)
  | [] => [[]]
  | c :: rest =>
    if c = sep then [] :: splitOnChar sep rest
    else
      match splitOnChar sep rest with
      | [] => [[c]]
      | l :: ls => (c :: l) :: ls

/-- Components of a path, split at every slash. -/
def pathParts (p : String) : List String :=
  (splitOnChar '/' p.data).map String.mk

/-- Final path component, i.e. the text after the last slash. -/
def lastComponent (p : String) : String :=
  (pathParts p).getLastD ""

/-- Embedding of `pathlib.Path(p).parent` for the relevant path shapes: drop the
final component; a single-component relative path has parent `"."`, and a
top-level absolute path has parent `"/"`. -/
def parentDir (p : String) : String :=
  let parts := pathParts p
  if parts.length ≤ 1 then "."
  else
    let d := String.intercalate "/" parts.dropLast
    if d = "" then "/" else d

/-- Position of the last dot in a string, if any. -/
def lastDotIdx (s : String) : Option Nat :=
  match s.data.reverse.findIdx? (fun c => c = '.') with
  | none => none
  | some k => some (s.data.length - 1 - k)

/-- Embedding of `pathlib.PurePath.stem` on a file name: the name without its
suffix, where a suffix starts at the last dot provided that dot is neither the
first nor the last character (CPython's rule `0 < i < len(name) - 1`). -/
def stemOfName (name : String) : String :=
  match lastDotIdx name with
  | none => name
  | some i => if 0 < i ∧ i < name.data.length - 1 then ⟨name.data.take i⟩ else name

/-- Embedding of `pathlib.PurePath.stem` on a path: stem of its last component. -/
def stemOf (p : String) : String :=
  stemOfName (lastComponent p)

/-- Embedding of `pathlib.PurePath.with_suffix`: the final component's suffix is
removed and `suf` is appended. -/
def withSuffix (p suf : String) : String :=
  let parts := pathParts p
  let name := parts.getLastD ""
  String.intercalate "/" (parts.dropLast ++ [stemOfName name ++ suf])

/-- Jinja2 truthiness of an optional string configuration value: an absent key
is falsy (`Undefined`), an empty string is falsy, a non-empty string is truthy. -/
def strTruthy : Option String → Bool
  | none => false
  | some s => s != ""

/-- Fields of the `sbatch` configuration group used by the program. -/
structure SbatchConfig where
  job_name : String
  partition : String
  account : Option String
  max_concurrent : Nat
  time : String
  nodes : String
  ntasks_per_node : String
  cpus_per_task : String
  mem : String
  output : String
  error : String
  mail_user : String
  mail_type : String
  max_queue : Nat
  deriving Repr, DecidableEq

/-- Fields of the `workflow` configuration group used by the program. -/
structure WorkflowConfig where
  sambamba : String
  readCounter : String
  Rscript : String
  ichorCNA_script : String
  readcounter_chrs : String
  bin_size : String
  readcounter_quality : String
  my_in_dir : String
  my_out_dir : String
  my_tmp_dir : String
  deriving Repr, DecidableEq

/-- Reference-file paths of the `ichorCNA.paths` group. -/
structure IchorPaths where
  gc_file : String
  map_file : String
  cent_file : String
  PON_file : String
  deriving Repr, DecidableEq

/-- Model parameters of the `ichorCNA.parameters` group.  Scalar values that the
template merely interpolates are kept as their rendered text; the five values
the template branches on with `'TRUE' if _ else 'FALSE'` are booleans. -/
structure IchorParams where
  maxCN : String
  includeHOMD : Bool
  chrs : String
  chrTrain : String
  chrNormalize : String
  estimateNormal : Bool
  estimatePloidy : Bool
  ploidy : String
  normal : String
  estimateScPrevalence : Bool
  scStates : String
  txnE : String
  txnStrength : String
  genomeBuild : String
  genomeStyle : String
  plotFileType : String
  plotYLim : String
  minMapScore : String
  rmCentromereFlankLength : String
  maxFracCNASubclone : String
  maxFracGenomeSubclone : String
  minSegmentBins : String
  altFracThreshold : String
  normalizeMaleX : Bool
  minTumFracToCorrect : String
  fracReadsInChrYForMale : String
  lambdaScaleHyperParam : String
  deriving Repr, DecidableEq

/-- The `ichorCNA` configuration group. -/
structure IchorConfig where
  paths : IchorPaths
  parameters : IchorParams
  deriving Repr, DecidableEq

/-- A configuration with the three required top-level groups present and typed. -/
structure Config where
  sbatch : SbatchConfig
  workflow : WorkflowConfig
  ichorCNA : IchorConfig
  deriving Repr, DecidableEq

/-- Glob pattern `*.bam` applied to a directory entry name.  `pathlib`'s glob is
`fnmatch`-based (`(?s:.*\.bam)` full-match), so it is exactly the test that the
name ends with the fixed input-file extension `.bam`. -/
def matchesBam (name : String) : Bool :=
  ".bam".data.isSuffixOf name.data

/-- Lexicographic comparison of paths by code points, exactly Python's string
comparison.  It is stated on the character lists and shown below to agree with
the `≤` of `String`. -/
def pathLe (a b : String) : Prop :=
  a.data ≤ b.data

instance : DecidableRel pathLe :=
  fun a b => inferInstanceAs (Decidable (a.data ≤ b.data))

instance : IsTotal String pathLe :=
  ⟨fun a b => le_total a.data b.data⟩

instance : IsTrans String pathLe :=
  ⟨fun _ _ _ h₁ h₂ => le_trans h₁ h₂⟩

instance : IsRefl String pathLe :=
  ⟨fun a => le_refl a.data⟩

instance : IsAntisymm String pathLe :=
  ⟨fun a b h₁ h₂ => by
    cases a with
    | mk da => cases b with
      | mk db => exact congrArg String.mk (le_antisymm h₁ h₂)⟩

/-- Embedding of `sorted(Path(inDir).glob("*.bam"))`: the matching entry names,
each joined to the directory, sorted lexicographically by full path.  Python's
`sorted` is modelled by insertion sort; lexicographic order is a linear order on
paths, so every correct sort produces the same list and the choice of algorithm
is immaterial. -/
def enumerateBams (inDir : String) (entries : List String) : List String :=
  List.insertionSort pathLe ((entries.filter matchesBam).map (fun nm => inDir ++ "/" ++ nm))

/-- Normalization performed on load: trailing slashes are stripped from the
three workflow directory fields; nothing else is mutated. -/
def normalizeConfig (c : Config) : Config :=
  { c with workflow := { c.workflow with
      my_in_dir := rstripSlashes c.workflow.my_in_dir,
      my_out_dir := rstripSlashes c.workflow.my_out_dir,
      my_tmp_dir := rstripSlashes c.workflow.my_tmp_dir } }

/-- A recorded filesystem side effect of a generation run. -/
inductive Eff where
  | mkdir (path : String)
  | write (path : String) (content : String)
  deriving Repr, DecidableEq

/-- The failure kinds caught by the single `except Exception` handler of
`generate`: the two input-check failures it raises itself, a missing
configuration group (`KeyError` from the group lookups), and an I/O failure
(`OSError` from directory creation or artifact writes). -/
inductive GenError where
  | emptyInput (dir : String)
  | queueOverflow (count maxQ : Nat)
  | configGroupMissing (group : String)
  | ioFailure (msg : String)
  deriving Repr, DecidableEq

/-- Message carried by each caught exception, as `str(e)` formats it: the two
raised errors carry the f-string texts of the source, a `KeyError` renders as
its quoted key, and an `OSError` as its own message. -/
def errorMessage : GenError → String
  | .emptyInput d => "No BAM files found in " ++ d ++ "."
  | .queueOverflow n q =>
      "Number of BAM files (" ++ toString n ++ ") exceeds max_queue of " ++ toString q ++ "."
  | .configGroupMissing g => "\x27" ++ g ++ "\x27"
  | .ioFailure m => m

/-- Embedding of the `except Exception` handler: whatever the caught failure
kind, it logs one critical line identifying the failure and terminates the
process with exit status 2 — the status does not depend on the exception. -/
def handleFailure (e : GenError) : Option String × Nat :=
  (some ("Fatal error: " ++ errorMessage e), 2)

/-- Observable outcome of one `generate` run: the ordered trace of filesystem
effects, the result, the `logger.critical` line if any, and the process exit
code. -/
structure GenOutcome where
  effects : List Eff
  result : Except GenError Unit
  criticalLog : Option String
  exitCode : Nat
  deriving Repr

/-- Concatenation of a list of text chunks. -/
def joinStr (l : List String) : String :=
  l.foldr (fun a b => a ++ b) ""

/-- Jinja2 expression `'TRUE' if flag else 'FALSE'`. -/
def renderBool (b : Bool) : String :=
  if b then "TRUE" else "FALSE"

/-- Template line 1. -/
def shebangLine : String := "#!/bin/bash\n"

/-- SBATCH directive line for the job name. -/
def jobNameLine (c : Config) : String :=
  "#SBATCH --job-name=" ++ c.sbatch.job_name ++ "\n"

/-- SBATCH directive line for the queue. -/
def partitionLine (c : Config) : String :=
  "#SBATCH --partition=" ++ c.sbatch.partition ++ "\n"

/-- Conditional account directive: the Jinja2 `if` guard keeps the directive
text only for a truthy account, and the line's trailing newline always remains. -/
def accountLine (c : Config) : String :=
  (if strTruthy c.sbatch.account then
    "#SBATCH --account=" ++ c.sbatch.account.getD "" else "") ++ "\n"

/-- Job-array directive: `total_files - 1` is evaluated as an integer. -/
def arrayLine (c : Config) (total : Nat) : String :=
  "#SBATCH --array=0-" ++ toString ((total : Int) - 1) ++ "%" ++
    toString c.sbatch.max_concurrent ++ "\n"

/-- SBATCH directive line for the time limit. -/
def timeLine (c : Config) : String :=
  "#SBATCH --time=" ++ c.sbatch.time ++ "\n"

/-- SBATCH directive line for the node count. -/
def nodesLine (c : Config) : String :=
  "#SBATCH --nodes=" ++ c.sbatch.nodes ++ "\n"

/-- SBATCH directive line for tasks per node. -/
def ntasksLine (c : Config) : String :=
  "#SBATCH --ntasks-per-node=" ++ c.sbatch.ntasks_per_node ++ "\n"

/-- SBATCH directive line for CPUs per task. -/
def cpusLine (c : Config) : String :=
  "#SBATCH --cpus-per-task=" ++ c.sbatch.cpus_per_task ++ "\n"

/-- SBATCH directive line for memory. -/
def memLine (c : Config) : String :=
  "#SBATCH --mem=" ++ c.sbatch.mem ++ "\n"

/-- SBATCH directive line for the stdout log path. -/
def outputLine (c : Config) : String :=
  "#SBATCH --output=" ++ c.sbatch.output ++ "\n"

/-- SBATCH directive line for the stderr log path. -/
def errorLine (c : Config) : String :=
  "#SBATCH --error=" ++ c.sbatch.error ++ "\n"

/-- SBATCH directive line for the notification address. -/
def mailUserLine (c : Config) : String :=
  "#SBATCH --mail-user=" ++ c.sbatch.mail_user ++ "\n"

/-- SBATCH directive line for the notification kinds. -/
def mailTypeLine (c : Config) : String :=
  "#SBATCH --mail-type=" ++ c.sbatch.mail_type ++ "\n"

/-- Shell preamble between the directives and the per-task function. -/
def preambleChunk : String :=
  "\nset -eo pipefail\numask 077\n\n"

/-- Opening of the `process_sample` function through the progress echo. -/
def processSampleHead : String :=
  "process_sample() \x7b\n    local input_bam=\"$1\"\n    local sample_id=\"$2\"\n" ++
  "    local tmp_dir=\"$3\"\n\n" ++
  "    filtered_bam=\"$\x7btmp_dir\x7d/$\x7bsample_id\x7d.filtered.bam\"\n" ++
  "    echo \"[$(date \x27+%Y-%m-%d %H:%M:%S\x27)] Processing $\x7bsample_id\x7d\"\n\n"

/-- Filter stage: the sambamba view/mv/index block. -/
def filterSection (c : Config) : String :=
  "    \"" ++ c.workflow.sambamba ++ "\" view \\\n" ++
  "        -t \"$\x7bSLURM_CPUS_PER_TASK\x7d\" -l 3 -h -f bam \\\n" ++
  "        -F \"not (duplicate or failed_quality_control) and proper_pair\" \\\n" ++
  "        -o \"$\x7bfiltered_bam\x7d.tmp\" \\\n" ++
  "        \"$\x7binput_bam\x7d\"\n" ++
  "    mv \"$\x7bfiltered_bam\x7d.tmp\" \"$\x7bfiltered_bam\x7d\"\n\n" ++
  "    \"" ++ c.workflow.sambamba ++
    "\" index -t \"$\x7bSLURM_CPUS_PER_TASK\x7d\" \"$\x7bfiltered_bam\x7d\"\n\n"

/-- Depth-extraction stage: the readCounter block and the ichorCNA echo. -/
def readCounterSection (c : Config) : String :=
  "    \"" ++ c.workflow.readCounter ++ "\" \\\n" ++
  "        --chromosome \"" ++ c.workflow.readcounter_chrs ++ "\" \\\n" ++
  "        --window \"" ++ c.workflow.bin_size ++ "\" \\\n" ++
  "        --quality \"" ++ c.workflow.readcounter_quality ++ "\" \\\n" ++
  "        \"$\x7bfiltered_bam\x7d\" > \"$\x7btmp_dir\x7d/$\x7bsample_id\x7d.wig.tmp\"\n" ++
  "    mv \"$\x7btmp_dir\x7d/$\x7bsample_id\x7d.wig.tmp\" \"$\x7btmp_dir\x7d/$\x7bsample_id\x7d.wig\"\n\n" ++
  "    echo \"[$(date \x27+%Y-%m-%d %H:%M:%S\x27)] Running ichorCNA for $\x7bsample_id\x7d\"\n"

/-- First line of the model-stage invocation. -/
def ichorCallHead (c : Config) : String :=
  "    \"" ++ c.workflow.Rscript ++ "\" \"" ++ c.workflow.ichorCNA_script ++ "\" \\\n"

/-- One continued `--name "value" \` argument line of the model invocation. -/
def flagLine (name value : String) : String :=
  "        --" ++ name ++ " \"" ++ value ++ "\" \\\n"

/-- Final `--name "value"` argument line (no continuation). -/
def lastFlagLine (name value : String) : String :=
  "        --" ++ name ++ " \"" ++ value ++ "\"\n"

/-- Closing of the generated script: end of `process_sample`, the list-file
read, and the `main` entry routine.  The template's trailing newline is dropped
by Jinja2 (`keep_trailing_newline` is off). -/
def closingSection (c : Config) (listFile : String) : String :=
  "\x7d\n\ndeclare -a BAM_FILES\nmapfile -t BAM_FILES < <(grep -v \x27^#\x27 \"" ++
    listFile ++ "\")\n\n" ++
  "main() \x7b\n" ++
  "    SAMPLE_ID=$(basename \"$\x7bBAM_FILES[$SLURM_ARRAY_TASK_ID]\x7d\" .bam)\n" ++
  "    SAMPLE_ID=\"$\x7bSAMPLE_ID%%.*\x7d\"\n" ++
  "    SAMPLE_TMP_BASE=\"" ++ c.workflow.my_tmp_dir ++
    "/$\x7bSAMPLE_ID\x7d-$\x7bSLURM_JOB_ID\x7d\"\n" ++
  "    mkdir -p \"$\x7bSAMPLE_TMP_BASE\x7d\" \"" ++ c.workflow.my_out_dir ++
    "/$\x7bSAMPLE_ID\x7d\" || exit 1\n" ++
  "    TMP_DIR=$(mktemp -d -p \"$\x7bSAMPLE_TMP_BASE\x7d\") || exit 1\n\n" ++
  "    trap \x27rm -rf \"$\x7bTMP_DIR\x7d\" \"$\x7bSAMPLE_TMP_BASE\x7d\"\x27 EXIT ERR\n\n" ++
  "    process_sample \\\n" ++
  "        \"$\x7bBAM_FILES[$SLURM_ARRAY_TASK_ID]\x7d\" \\\n" ++
  "        \"$\x7bSAMPLE_ID\x7d\" \\\n" ++
  "        \"$\x7bTMP_DIR\x7d\"\n" ++
  "\x7d\n\nmain \"$@\""

/-- Rendered text of `SBATCH_TEMPLATE` as the ordered list of its chunks, one
chunk per template line or literal block, in template order. -/
def scriptChunks (c : Config) (total : Nat) (listFile : String) : List String :=
  [shebangLine,
   jobNameLine c,
   partitionLine c,
   accountLine c,
   arrayLine c total,
   timeLine c,
   nodesLine c,
   ntasksLine c,
   cpusLine c,
   memLine c,
   outputLine c,
   errorLine c,
   mailUserLine c,
   mailTypeLine c,
   preambleChunk,
   processSampleHead,
   filterSection c,
   readCounterSection c,
   ichorCallHead c,
   flagLine "id" "$\x7bsample_id\x7d",
   flagLine "WIG" "$\x7btmp_dir\x7d/$\x7bsample_id\x7d.wig",
   flagLine "gcWig" c.ichorCNA.paths.gc_file,
   flagLine "mapWig" c.ichorCNA.paths.map_file,
   flagLine "centromere" c.ichorCNA.paths.cent_file,
   flagLine "normalPanel" c.ichorCNA.paths.PON_file,
   flagLine "maxCN" c.ichorCNA.parameters.maxCN,
   flagLine "includeHOMD" (renderBool c.ichorCNA.parameters.includeHOMD),
   flagLine "chrs" c.ichorCNA.parameters.chrs,
   flagLine "chrTrain" c.ichorCNA.parameters.chrTrain,
   flagLine "chrNormalize" c.ichorCNA.parameters.chrNormalize,
   flagLine "estimateNormal" (renderBool c.ichorCNA.parameters.estimateNormal),
   flagLine "estimatePloidy" (renderBool c.ichorCNA.parameters.estimatePloidy),
   flagLine "ploidy" c.ichorCNA.parameters.ploidy,
   flagLine "normal" c.ichorCNA.parameters.normal,
   flagLine "estimateScPrevalence" (renderBool c.ichorCNA.parameters.estimateScPrevalence),
   flagLine "scStates" c.ichorCNA.parameters.scStates,
   flagLine "txnE" c.ichorCNA.parameters.txnE,
   flagLine "txnStrength" c.ichorCNA.parameters.txnStrength,
   flagLine "outDir" (c.workflow.my_out_dir ++ "/$\x7bsample_id\x7d"),
   flagLine "genomeBuild" c.ichorCNA.parameters.genomeBuild,
   flagLine "genomeStyle" c.ichorCNA.parameters.genomeStyle,
   flagLine "plotFileType" c.ichorCNA.parameters.plotFileType,
   flagLine "plotYLim" c.ichorCNA.parameters.plotYLim,
   flagLine "minMapScore" c.ichorCNA.parameters.minMapScore,
   flagLine "rmCentromereFlankLength" c.ichorCNA.parameters.rmCentromereFlankLength,
   flagLine "maxFracCNASubclone" c.ichorCNA.parameters.maxFracCNASubclone,
   flagLine "maxFracGenomeSubclone" c.ichorCNA.parameters.maxFracGenomeSubclone,
   flagLine "minSegmentBins" c.ichorCNA.parameters.minSegmentBins,
   flagLine "altFracThreshold" c.ichorCNA.parameters.altFracThreshold,
   flagLine "normalizeMaleX" (renderBool c.ichorCNA.parameters.normalizeMaleX),
   flagLine "minTumFracToCorrect" c.ichorCNA.parameters.minTumFracToCorrect,
   flagLine "fracReadsInChrYForMale" c.ichorCNA.parameters.fracReadsInChrYForMale,
   lastFlagLine "lambdaScaleHyperParam" c.ichorCNA.parameters.lambdaScaleHyperParam,
   closingSection c listFile]

/-- Embedding of `SBATCH_TEMPLATE.render(...)`. -/
def renderScript (c : Config) (total : Nat) (listFile : String) : String :=
  joinStr (scriptChunks c total listFile)

/-- Embedding of the `generate` command body after a successful load of the
three configuration groups: normalization, directory creation, enumeration with
its two count checks, list-artifact write, render, and script write.  A raised
error is caught by the surrounding handler, logged as critical, and turned into
`sys.exit(2)`; successful completion exits 0. -/
def generate (cfg : Config) (entries : List String) (configFile : String) : GenOutcome :=
  let c := normalizeConfig cfg
  let pre : List Eff :=
    [Eff.mkdir c.workflow.my_out_dir,
     Eff.mkdir (parentDir c.sbatch.output),
     Eff.mkdir (parentDir c.sbatch.error)]
  let bams := enumerateBams c.workflow.my_in_dir entries
  if bams.isEmpty then
    { effects := pre,
      result := .error (.emptyInput c.workflow.my_in_dir),
      criticalLog := (handleFailure (.emptyInput c.workflow.my_in_dir)).1,
      exitCode := (handleFailure (.emptyInput c.workflow.my_in_dir)).2 }
  else if bams.length > c.sbatch.max_queue then
    { effects := pre,
      result := .error (.queueOverflow bams.length c.sbatch.max_queue),
      criticalLog := (handleFailure (.queueOverflow bams.length c.sbatch.max_queue)).1,
      exitCode := (handleFailure (.queueOverflow bams.length c.sbatch.max_queue)).2 }
  else
    let listFile := c.workflow.my_out_dir ++ "/" ++ stemOf configFile ++ ".lst"
    let listText := String.intercalate "\n" bams
    let script := renderScript c bams.length listFile
    { effects := pre ++
        [Eff.write listFile listText,
         Eff.write (withSuffix configFile ".sbatch") script],
      result := .ok (),
      criticalLog := none,
      exitCode := 0 }

/-! Basic lemmas about the embedding, shared by the claim theorems. -/

theorem pathLe_iff_le (a b : String) : pathLe a b ↔ a ≤ b := by
  rw [String.le_iff_toList_le]
  exact Iff.rfl

theorem joinStr_nil : joinStr [] = "" := rfl

theorem joinStr_cons (x : String) (xs : List String) :
    joinStr (x :: xs) = x ++ joinStr xs := rfl

theorem joinStr_append (l₁ l₂ : List String) :
    joinStr (l₁ ++ l₂) = joinStr l₁ ++ joinStr l₂ := by
  induction l₁ with
  | nil => rw [List.nil_append, joinStr_nil, String.empty_append]
  | cons x xs ih => rw [List.cons_append, joinStr_cons, joinStr_cons, ih, String.append_assoc]

theorem joinStr_split_at (l : List String) (k : Nat) (h : k < l.length) :
    joinStr l = joinStr (l.take k) ++ (l.getD k "" ++ joinStr (l.drop (k + 1))) := by
  conv_lhs => rw [← List.take_append_drop k l]
  rw [joinStr_append, List.drop_eq_getElem_cons h, joinStr_cons, List.getD_eq_getElem l "" h]

/-- Every chunk of the rendered script occurs literally in the script text, with
the text of the preceding chunks before it and that of the following chunks
after it. -/
theorem renderScript_split (c : Config) (total : Nat) (lf : String) (k : Nat)
    (h : k < (scriptChunks c total lf).length) :
    ∃ p s, renderScript c total lf = p ++ ((scriptChunks c total lf).getD k "" ++ s) :=
  ⟨joinStr ((scriptChunks c total lf).take k),
   joinStr ((scriptChunks c total lf).drop (k + 1)),
   joinStr_split_at _ k h⟩

theorem scriptChunks_length (c : Config) (total : Nat) (lf : String) :
    (scriptChunks c total lf).length = 54 := rfl

theorem enumerateBams_sorted_pathLe (d : String) (es : List String) :
    (enumerateBams d es).Sorted pathLe :=
  List.sorted_insertionSort pathLe _

theorem enumerateBams_perm (d : String) (es : List String) :
    (enumerateBams d es).Perm ((es.filter matchesBam).map (fun nm => d ++ "/" ++ nm)) :=
  List.perm_insertionSort pathLe _

theorem enumerateBams_length (d : String) (es : List String) :
    (enumerateBams d es).length = (es.filter matchesBam).length := by
  rw [(enumerateBams_perm d es).length_eq, List.length_map]

theorem enumerateBams_eq_of_perm (d : String) {e₁ e₂ : List String} (h : e₁.Perm e₂) :
    enumerateBams d e₁ = enumerateBams d e₂ :=
  List.eq_of_perm_of_sorted
    ((enumerateBams_perm d e₁).trans
      (((List.Perm.filter matchesBam h).map (fun nm => d ++ "/" ++ nm)).trans
        (enumerateBams_perm d e₂).symm))
    (enumerateBams_sorted_pathLe d e₁) (enumerateBams_sorted_pathLe d e₂)

theorem normalizeConfig_sbatch (c : Config) : (normalizeConfig c).sbatch = c.sbatch := rfl

theorem normalizeConfig_in_dir (c : Config) :
    (normalizeConfig c).workflow.my_in_dir = rstripSlashes c.workflow.my_in_dir := rfl

theorem normalizeConfig_out_dir (c : Config) :
    (normalizeConfig c).workflow.my_out_dir = rstripSlashes c.workflow.my_out_dir := rfl

/-- Run of `generate` on an input directory with no matching file: both `mkdir`
phases have happened, `FileNotFoundError` is raised, caught, logged, and the
process exits 2. -/
theorem generate_eq_empty (c : Config) (entries : List String) (f : String)
    (h : (enumerateBams (rstripSlashes c.workflow.my_in_dir) entries).length = 0) :
    generate c entries f =
      { effects := [Eff.mkdir (rstripSlashes c.workflow.my_out_dir),
                    Eff.mkdir (parentDir c.sbatch.output),
                    Eff.mkdir (parentDir c.sbatch.error)],
        result := .error (.emptyInput (rstripSlashes c.workflow.my_in_dir)),
        criticalLog := some ("Fatal error: " ++
          errorMessage (.emptyInput (rstripSlashes c.workflow.my_in_dir))),
        exitCode := 2 } := by
  have he : (enumerateBams ((normalizeConfig c).workflow.my_in_dir) entries).isEmpty = true := by
    rw [List.isEmpty_iff_length_eq_zero]
    exact h
  simp only [generate, he, if_true]
  rfl

/-- Run of `generate` with more matching files than `max_queue`: both `mkdir`
phases have happened, `ValueError` is raised, caught, logged, and the process
exits 2. -/
theorem generate_eq_overflow (c : Config) (entries : List String) (f : String)
    (h : (enumerateBams (rstripSlashes c.workflow.my_in_dir) entries).length >
      c.sbatch.max_queue) :
    generate c entries f =
      { effects := [Eff.mkdir (rstripSlashes c.workflow.my_out_dir),
                    Eff.mkdir (parentDir c.sbatch.output),
                    Eff.mkdir (parentDir c.sbatch.error)],
        result := .error (.queueOverflow
          (enumerateBams (rstripSlashes c.workflow.my_in_dir) entries).length
          c.sbatch.max_queue),
        criticalLog := some ("Fatal error: " ++
          errorMessage (.queueOverflow
            (enumerateBams (rstripSlashes c.workflow.my_in_dir) entries).length
            c.sbatch.max_queue)),
        exitCode := 2 } := by
  have he : (enumerateBams ((normalizeConfig c).workflow.my_in_dir) entries).isEmpty = false := by
    rw [List.isEmpty_eq_false]
    intro hnil
    rw [normalizeConfig_in_dir] at hnil
    rw [hnil] at h
    simp at h
  have hcond : (enumerateBams ((normalizeConfig c).workflow.my_in_dir) entries).length >
      (normalizeConfig c).sbatch.max_queue := h
  simp only [generate, he, Bool.false_eq_true, if_false]
  rw [if_pos hcond]
  rfl

/-- Successful run of `generate`: the three `mkdir`s, then the list artifact
write, then the script write; exit code 0 and no critical log. -/
theorem generate_eq_ok (c : Config) (entries : List String) (f : String)
    (h1 : 0 < (enumerateBams (rstripSlashes c.workflow.my_in_dir) entries).length)
    (h2 : (enumerateBams (rstripSlashes c.workflow.my_in_dir) entries).length ≤
      c.sbatch.max_queue) :
    generate c entries f =
      { effects := [Eff.mkdir (rstripSlashes c.workflow.my_out_dir),
                    Eff.mkdir (parentDir c.sbatch.output),
                    Eff.mkdir (parentDir c.sbatch.error),
                    Eff.write
                      (rstripSlashes c.workflow.my_out_dir ++ "/" ++ stemOf f ++ ".lst")
                      (String.intercalate "\n"
                        (enumerateBams (rstripSlashes c.workflow.my_in_dir) entries)),
                    Eff.write (withSuffix f ".sbatch")
                      (renderScript (normalizeConfig c)
                        (enumerateBams (rstripSlashes c.workflow.my_in_dir) entries).length
                        (rstripSlashes c.workflow.my_out_dir ++ "/" ++ stemOf f ++ ".lst"))],
        result := .ok (),
        criticalLog := none,
        exitCode := 0 } := by
  have he : (enumerateBams ((normalizeConfig c).workflow.my_in_dir) entries).isEmpty = false := by
    rw [List.isEmpty_eq_false]
    intro hnil
    rw [normalizeConfig_in_dir] at hnil
    rw [hnil] at h1
    simp at h1
  have hq : ¬ ((enumerateBams ((normalizeConfig c).workflow.my_in_dir) entries).length >
      (normalizeConfig c).sbatch.max_queue) := by
    rw [normalizeConfig_in_dir, normalizeConfig_sbatch]
    omega
  simp only [generate, he, Bool.false_eq_true, if_false]
  rw [if_neg hq]
  rfl

/-! Concrete data used to instantiate the hypothesized theorems. -/

/-- A concrete `sbatch` group with `max_queue = 3` and `max_concurrent = 10`. -/
def sampleSbatch : SbatchConfig :=
  { job_name := "ichorCNA"
    partition := "panda"
    account := none
    max_concurrent := 10
    time := "24:00:00"
    nodes := "1"
    ntasks_per_node := "1"
    cpus_per_task := "8"
    mem := "16G"
    output := "logs/%x-%A_%a.out"
    error := "logs/%x-%A_%a.err"
    mail_user := "user@example.org"
    mail_type := "FAIL"
    max_queue := 3 }

/-- A concrete `workflow` group; the directory fields carry trailing slashes so
normalization is exercised. -/
def sampleWorkflow : WorkflowConfig :=
  { sambamba := "/opt/sambamba"
    readCounter := "/opt/readCounter"
    Rscript := "/usr/bin/Rscript"
    ichorCNA_script := "/opt/ichorCNA/runIchorCNA.R"
    readcounter_chrs := "chr1,chr2"
    bin_size := "1000000"
    readcounter_quality := "20"
    my_in_dir := "data/"
    my_out_dir := "results"
    my_tmp_dir := "/tmp/work/" }

/-- Concrete reference-file paths. -/
def samplePaths : IchorPaths :=
  { gc_file := "/ref/gc.wig"
    map_file := "/ref/map.wig"
    cent_file := "/ref/cent.txt"
    PON_file := "/ref/pon.rds" }

/-- Concrete model parameters with a mix of true and false boolean flags. -/
def sampleParams : IchorParams :=
  { maxCN := "5"
    includeHOMD := false
    chrs := "c(1:22)"
    chrTrain := "c(1:22)"
    chrNormalize := "c(1:22)"
    estimateNormal := true
    estimatePloidy := true
    ploidy := "c(2,3)"
    normal := "c(0.5,0.6)"
    estimateScPrevalence := true
    scStates := "c(1,3)"
    txnE := "0.9999"
    txnStrength := "10000"
    genomeBuild := "hg38"
    genomeStyle := "UCSC"
    plotFileType := "pdf"
    plotYLim := "c(-2,2)"
    minMapScore := "0.75"
    rmCentromereFlankLength := "100000"
    maxFracCNASubclone := "0.7"
    maxFracGenomeSubclone := "0.5"
    minSegmentBins := "50"
    altFracThreshold := "0.05"
    normalizeMaleX := false
    minTumFracToCorrect := "0.1"
    fracReadsInChrYForMale := "0.001"
    lambdaScaleHyperParam := "3" }

/-- A complete concrete configuration without a scheduler account. -/
def sampleConfig : Config :=
  { sbatch := sampleSbatch
    workflow := sampleWorkflow
    ichorCNA := { paths := samplePaths, parameters := sampleParams } }

/-- The same configuration with a truthy scheduler account. -/
def sampleConfigAcct : Config :=
  { sampleConfig with sbatch := { sampleSbatch with account := some "lab" } }

/-- Directory listing with exactly `max_queue` matching files, unsorted. -/
def entsThree : List String := ["c.bam", "a.bam", "b.bam"]

/-- The same directory listing in a different enumeration order. -/
def entsThreePerm : List String := ["a.bam", "b.bam", "c.bam"]

/-- Directory listing with `max_queue + 1` matching files. -/
def entsFour : List String := ["c.bam", "a.bam", "b.bam", "d.bam"]

/-! Claim theorems. -/

/-- C1: for every valid configuration and every non-empty enumerated input set
of `total` files, the rendered script text contains the job-array directive line
`#SBATCH --array=0-(total-1)%max_concurrent`. -/
theorem array_directive_spans_input_set (c : Config) (total : Nat) (lf : String)
    (h : 1 ≤ total) :
    ∃ p s, renderScript c total lf =
      p ++ (("#SBATCH --array=0-" ++ toString (total - 1) ++ "%" ++
        toString c.sbatch.max_concurrent ++ "\n") ++ s) := by
  obtain ⟨p, s, hp⟩ := renderScript_split c total lf 4 (by rw [scriptChunks_length]; omega)
  have h4 : (scriptChunks c total lf).getD 4 "" = arrayLine c total := rfl
  rw [h4] at hp
  have hts : toString ((total : Int) - 1) = toString (total - 1) := by
    have hc : ((total : Int) - 1) = ((total - 1 : Nat) : Int) := by omega
    rw [hc]
    rfl
  refine ⟨p, s, ?_⟩
  rw [hp]
  simp only [arrayLine, hts]

/-- Witness for C1: concrete configuration, five input files, concurrency cap 10. -/
theorem array_directive_spans_input_set_w :
    ∃ p s, renderScript sampleConfig 5 "results/conf.lst" =
      p ++ ("#SBATCH --array=0-4%10\n" ++ s) :=
  array_directive_spans_input_set sampleConfig 5 "results/conf.lst" (by omega)

/-- C2: an enumerated count equal to `max_queue` is accepted; `max_queue + 1`
fails with the queue-overflow error; zero matching files fails with the
empty-input error. -/
theorem count_bounds_boundary (c : Config) (entries : List String) (f : String) :
    ((enumerateBams (rstripSlashes c.workflow.my_in_dir) entries).length =
        c.sbatch.max_queue →
      1 ≤ (enumerateBams (rstripSlashes c.workflow.my_in_dir) entries).length →
      (generate c entries f).result = .ok ())
    ∧ ((enumerateBams (rstripSlashes c.workflow.my_in_dir) entries).length =
        c.sbatch.max_queue + 1 →
      (generate c entries f).result = .error (.queueOverflow
        (enumerateBams (rstripSlashes c.workflow.my_in_dir) entries).length
        c.sbatch.max_queue))
    ∧ ((enumerateBams (rstripSlashes c.workflow.my_in_dir) entries).length = 0 →
      (generate c entries f).result = .error
        (.emptyInput (rstripSlashes c.workflow.my_in_dir))) := by
  refine ⟨fun h1 h2 => ?_, fun h => ?_, fun h => ?_⟩
  · rw [generate_eq_ok c entries f h2 (le_of_eq h1)]
  · rw [generate_eq_overflow c entries f (by omega)]
  · rw [generate_eq_empty c entries f h]

/-- Witness for C2: with `max_queue = 3`, three files are accepted, four
overflow, and an empty directory is rejected. -/
theorem count_bounds_boundary_w :
    (generate sampleConfig entsThree "conf.yaml").result = .ok ()
    ∧ (generate sampleConfig entsFour "conf.yaml").result =
        .error (.queueOverflow 4 3)
    ∧ (generate sampleConfig [] "conf.yaml").result = .error (.emptyInput "data") := by
  refine ⟨?_, ?_, ?_⟩
  · exact (count_bounds_boundary sampleConfig entsThree "conf.yaml").1 (by decide) (by decide)
  · exact (count_bounds_boundary sampleConfig entsFour "conf.yaml").2.1 (by decide)
  · exact (count_bounds_boundary sampleConfig [] "conf.yaml").2.2 (by decide)

/-- C3: when the enumerated count exceeds `max_queue`, the run fails with the
queue-overflow error, and on every failing run (either count check) the effect
trace contains no write at all — neither the list artifact nor the script. -/
theorem overflow_fails_before_writes (c : Config) (entries : List String) (f : String) :
    ((enumerateBams (rstripSlashes c.workflow.my_in_dir) entries).length >
        c.sbatch.max_queue →
      (generate c entries f).result = .error (.queueOverflow
        (enumerateBams (rstripSlashes c.workflow.my_in_dir) entries).length
        c.sbatch.max_queue))
    ∧ (∀ e, (generate c entries f).result = .error e →
        ∀ p t, Eff.write p t ∉ (generate c entries f).effects) := by
  constructor
  · intro h
    rw [generate_eq_overflow c entries f h]
  · intro e he p t hmem
    by_cases h0 : (enumerateBams (rstripSlashes c.workflow.my_in_dir) entries).length = 0
    · rw [generate_eq_empty c entries f h0] at hmem
      simp at hmem
    · by_cases hq : (enumerateBams (rstripSlashes c.workflow.my_in_dir) entries).length >
          c.sbatch.max_queue
      · rw [generate_eq_overflow c entries f hq] at hmem
        simp at hmem
      · rw [generate_eq_ok c entries f (by omega) (by omega)] at he
        simp at he

/-- Witness for C3: `max_queue = 3` and four matching files fail with the
overflow error and produce no write effect. -/
theorem overflow_fails_before_writes_w :
    (generate sampleConfig entsFour "conf.yaml").result = .error (.queueOverflow 4 3)
    ∧ Eff.write "results/conf.lst" "data/a.bam\ndata/b.bam\ndata/c.bam\ndata/d.bam"
        ∉ (generate sampleConfig entsFour "conf.yaml").effects := by
  constructor
  · exact (overflow_fails_before_writes sampleConfig entsFour "conf.yaml").1 (by decide)
  · exact (overflow_fails_before_writes sampleConfig entsFour "conf.yaml").2
      (.queueOverflow 4 3)
      ((overflow_fails_before_writes sampleConfig entsFour "conf.yaml").1 (by decide))
      "results/conf.lst" "data/a.bam\ndata/b.bam\ndata/c.bam\ndata/d.bam"

/-- C4: enumeration yields exactly the entries matching the input extension,
as full paths sorted lexicographically, and on a successful run the list
artifact written is their newline-joined serialization in that order. -/
theorem enumeration_exact_sorted_serialized (c : Config) (entries : List String)
    (f : String) :
    (enumerateBams (rstripSlashes c.workflow.my_in_dir) entries).Sorted (· ≤ ·)
    ∧ (enumerateBams (rstripSlashes c.workflow.my_in_dir) entries).Perm
        ((entries.filter matchesBam).map
          (fun nm => rstripSlashes c.workflow.my_in_dir ++ "/" ++ nm))
    ∧ ((generate c entries f).result = .ok () →
        Eff.write (rstripSlashes c.workflow.my_out_dir ++ "/" ++ stemOf f ++ ".lst")
          (String.intercalate "\n"
            (enumerateBams (rstripSlashes c.workflow.my_in_dir) entries))
          ∈ (generate c entries f).effects) := by
  refine ⟨?_, enumerateBams_perm _ entries, ?_⟩
  · exact (enumerateBams_sorted_pathLe _ entries).imp (fun hab => (pathLe_iff_le _ _).mp hab)
  · intro hok
    by_cases h0 : (enumerateBams (rstripSlashes c.workflow.my_in_dir) entries).length = 0
    · rw [generate_eq_empty c entries f h0] at hok
      simp at hok
    · by_cases hq : (enumerateBams (rstripSlashes c.workflow.my_in_dir) entries).length >
          c.sbatch.max_queue
      · rw [generate_eq_overflow c entries f hq] at hok
        simp at hok
      · rw [generate_eq_ok c entries f (by omega) (by omega)]
        simp

/-- Witness for C4: three unsorted entries are enumerated sorted and written as
three lines in sorted order. -/
theorem enumeration_exact_sorted_serialized_w :
    Eff.write "results/conf.lst" "data/a.bam\ndata/b.bam\ndata/c.bam"
      ∈ (generate sampleConfig entsThree "conf.yaml").effects := by
  have h := (enumeration_exact_sorted_serialized sampleConfig entsThree "conf.yaml").2.2
    (by rw [generate_eq_ok sampleConfig entsThree "conf.yaml" (by decide) (by decide)])
  have he : Eff.write
      (rstripSlashes sampleConfig.workflow.my_out_dir ++ "/" ++ stemOf "conf.yaml" ++ ".lst")
      (String.intercalate "\n"
        (enumerateBams (rstripSlashes sampleConfig.workflow.my_in_dir) entsThree)) =
      Eff.write "results/conf.lst" "data/a.bam\ndata/b.bam\ndata/c.bam" := by decide
  rw [he] at h
  exact h

/-- C5: compilation is deterministic and idempotent.  Two runs against the same
configuration and the same directory contents — even if the filesystem lists the
entries in a different order — produce identical effect traces, hence
byte-identical ordered lists, list artifacts, and generated scripts; a re-run
overwrites each artifact with identical content. -/
theorem generate_deterministic (c : Config) (e₁ e₂ : List String) (f : String)
    (h : e₁.Perm e₂) :
    generate c e₁ f = generate c e₂ f := by
  have henum : enumerateBams ((normalizeConfig c).workflow.my_in_dir) e₁ =
      enumerateBams ((normalizeConfig c).workflow.my_in_dir) e₂ :=
    enumerateBams_eq_of_perm _ h
  simp only [generate, henum]

/-- Witness for C5: the same three files enumerated in two different orders
generate identical outcomes. -/
theorem generate_deterministic_w :
    generate sampleConfig entsThree "conf.yaml" =
      generate sampleConfig entsThreePerm "conf.yaml" :=
  generate_deterministic sampleConfig entsThree entsThreePerm "conf.yaml" (by decide)

/-- C6: each of the five boolean model parameters renders in the generated
script as the literal flag value `TRUE` when configured true and `FALSE` when
configured false, and these rendered tokens are never the source-language
spellings `True`/`False`. -/
theorem booleans_render_as_upper_tokens (c : Config) (total : Nat) (lf : String) :
    (∃ p s, renderScript c total lf = p ++ (flagLine "includeHOMD"
      (if c.ichorCNA.parameters.includeHOMD then "TRUE" else "FALSE") ++ s))
    ∧ (∃ p s, renderScript c total lf = p ++ (flagLine "estimateNormal"
      (if c.ichorCNA.parameters.estimateNormal then "TRUE" else "FALSE") ++ s))
    ∧ (∃ p s, renderScript c total lf = p ++ (flagLine "estimatePloidy"
      (if c.ichorCNA.parameters.estimatePloidy then "TRUE" else "FALSE") ++ s))
    ∧ (∃ p s, renderScript c total lf = p ++ (flagLine "estimateScPrevalence"
      (if c.ichorCNA.parameters.estimateScPrevalence then "TRUE" else "FALSE") ++ s))
    ∧ (∃ p s, renderScript c total lf = p ++ (flagLine "normalizeMaleX"
      (if c.ichorCNA.parameters.normalizeMaleX then "TRUE" else "FALSE") ++ s))
    ∧ (∀ b : Bool, (if b then "TRUE" else "FALSE") ≠ "True"
        ∧ (if b then "TRUE" else "FALSE") ≠ "False") := by
  refine ⟨?_, ?_, ?_, ?_, ?_, ?_⟩
  · exact renderScript_split c total lf 26 (by rw [scriptChunks_length]; omega)
  · exact renderScript_split c total lf 30 (by rw [scriptChunks_length]; omega)
  · exact renderScript_split c total lf 31 (by rw [scriptChunks_length]; omega)
  · exact renderScript_split c total lf 34 (by rw [scriptChunks_length]; omega)
  · exact renderScript_split c total lf 49 (by rw [scriptChunks_length]; omega)
  · intro b
    cases b <;> exact ⟨by decide, by decide⟩

/-- C7 does not hold as stated: the failure kinds do not get distinct exit
statuses.  At the same configuration, an empty input set and a queue overflow —
two different caught failure kinds — both terminate with the same exit status 2. -/
theorem exit_statuses_not_distinct_cex :
    (generate sampleConfig [] "conf.yaml").result = .error (.emptyInput "data")
    ∧ (generate sampleConfig entsFour "conf.yaml").result =
        .error (.queueOverflow 4 3)
    ∧ (generate sampleConfig [] "conf.yaml").exitCode = 2
    ∧ (generate sampleConfig entsFour "conf.yaml").exitCode = 2 := by
  refine ⟨?_, ?_, ?_, ?_⟩
  · rw [generate_eq_empty sampleConfig [] "conf.yaml" (by decide)]
    exact rfl
  · rw [generate_eq_overflow sampleConfig entsFour "conf.yaml" (by decide)]
    exact rfl
  · rw [generate_eq_empty sampleConfig [] "conf.yaml" (by decide)]
  · rw [generate_eq_overflow sampleConfig entsFour "conf.yaml" (by decide)]

/-- C7 amended: the process exits 0 on success; every caught failure kind —
missing config group, empty input set, queue overflow, I/O failure — terminates
the process with the same non-zero exit status 2 (not a distinct status per
kind), accompanied by a human-readable critical-log message identifying the
failure: the error paths of a run exit 2 with the message, and the handler
gives status 2 and the identifying message uniformly for all four kinds. -/
theorem exit_status_uniform (c : Config) (entries : List String) (f : String) :
    ((generate c entries f).result = .ok () →
      (generate c entries f).exitCode = 0 ∧ (generate c entries f).criticalLog = none)
    ∧ (∀ e, (generate c entries f).result = .error e →
      (generate c entries f).exitCode = 2 ∧
      (generate c entries f).criticalLog = some ("Fatal error: " ++ errorMessage e))
    ∧ (∀ e : GenError,
      (handleFailure e).2 = 2 ∧
      (handleFailure e).1 = some ("Fatal error: " ++ errorMessage e)) := by
  refine ⟨?_, ?_, fun e => ⟨rfl, rfl⟩⟩
  · intro hok
    by_cases h0 : (enumerateBams (rstripSlashes c.workflow.my_in_dir) entries).length = 0
    · rw [generate_eq_empty c entries f h0] at hok
      simp at hok
    · by_cases hq : (enumerateBams (rstripSlashes c.workflow.my_in_dir) entries).length >
          c.sbatch.max_queue
      · rw [generate_eq_overflow c entries f hq] at hok
        simp at hok
      · rw [generate_eq_ok c entries f (by omega) (by omega)]
        exact ⟨rfl, rfl⟩
  · intro e he
    by_cases h0 : (enumerateBams (rstripSlashes c.workflow.my_in_dir) entries).length = 0
    · rw [generate_eq_empty c entries f h0] at he ⊢
      simp only [Except.error.injEq] at he
      rw [← he]
      exact ⟨rfl, rfl⟩
    · by_cases hq : (enumerateBams (rstripSlashes c.workflow.my_in_dir) entries).length >
          c.sbatch.max_queue
      · rw [generate_eq_overflow c entries f hq] at he ⊢
        simp only [Except.error.injEq] at he
        rw [← he]
        exact ⟨rfl, rfl⟩
      · rw [generate_eq_ok c entries f (by omega) (by omega)] at he
        simp at he

/-- Witness for the amended C7: a successful run exits 0; an overflow run exits
2 with the overflow message logged. -/
theorem exit_status_uniform_w :
    ((generate sampleConfig entsThree "conf.yaml").exitCode = 0
      ∧ (generate sampleConfig entsThree "conf.yaml").criticalLog = none)
    ∧ ((generate sampleConfig entsFour "conf.yaml").exitCode = 2
      ∧ (generate sampleConfig entsFour "conf.yaml").criticalLog =
        some "Fatal error: Number of BAM files (4) exceeds max_queue of 3.") := by
  constructor
  · exact (exit_status_uniform sampleConfig entsThree "conf.yaml").1
      (by rw [generate_eq_ok sampleConfig entsThree "conf.yaml" (by decide) (by decide)])
  · have h := (exit_status_uniform sampleConfig entsFour "conf.yaml").2.1
      (.queueOverflow 4 3)
      (by rw [generate_eq_overflow sampleConfig entsFour "conf.yaml" (by decide)]
          exact rfl)
    have hmsg : ("Fatal error: " ++ errorMessage (.queueOverflow 4 3)) =
        "Fatal error: Number of BAM files (4) exceeds max_queue of 3." := by decide
    rw [hmsg] at h
    exact h

/-- C8: on a successful run the list artifact is written under the configured
output directory with the configuration file's stem plus `.lst`, and the
generated script is written at the configuration file's path with its extension
replaced by `.sbatch`. -/
theorem artifact_placement_from_config_name (c : Config) (entries : List String)
    (f : String) (h : (generate c entries f).result = .ok ()) :
    ∃ listText scriptText,
      (generate c entries f).effects =
        [Eff.mkdir (rstripSlashes c.workflow.my_out_dir),
         Eff.mkdir (parentDir c.sbatch.output),
         Eff.mkdir (parentDir c.sbatch.error),
         Eff.write (rstripSlashes c.workflow.my_out_dir ++ "/" ++ stemOf f ++ ".lst")
           listText,
         Eff.write (withSuffix f ".sbatch") scriptText] := by
  by_cases h0 : (enumerateBams (rstripSlashes c.workflow.my_in_dir) entries).length = 0
  · rw [generate_eq_empty c entries f h0] at h
    simp at h
  · by_cases hq : (enumerateBams (rstripSlashes c.workflow.my_in_dir) entries).length >
        c.sbatch.max_queue
    · rw [generate_eq_overflow c entries f hq] at h
      simp at h
    · rw [generate_eq_ok c entries f (by omega) (by omega)]
      exact ⟨_, _, rfl⟩

/-- Witness for C8: config file `conf.yaml` places `conf.lst` under `results`
and the script at `conf.sbatch`. -/
theorem artifact_placement_from_config_name_w :
    ∃ listText scriptText,
      (generate sampleConfig entsThree "conf.yaml").effects =
        [Eff.mkdir "results",
         Eff.mkdir "logs",
         Eff.mkdir "logs",
         Eff.write "results/conf.lst" listText,
         Eff.write "conf.sbatch" scriptText] := by
  obtain ⟨lt, st, hp⟩ := artifact_placement_from_config_name sampleConfig entsThree "conf.yaml"
    (by rw [generate_eq_ok sampleConfig entsThree "conf.yaml" (by decide) (by decide)])
  exact ⟨lt, st, hp⟩

/-- C9: the output directory and both log-path parent directories are created
before the input checks run — the effect trace of every run starts with the
three `mkdir`s, and on every failing run they are exactly the trace, so the
filesystem is not left unchanged on the error paths. -/
theorem mkdirs_precede_validation (c : Config) (entries : List String) (f : String) :
    ((generate c entries f).effects.take 3 =
      [Eff.mkdir (rstripSlashes c.workflow.my_out_dir),
       Eff.mkdir (parentDir c.sbatch.output),
       Eff.mkdir (parentDir c.sbatch.error)])
    ∧ (∀ e, (generate c entries f).result = .error e →
        (generate c entries f).effects =
          [Eff.mkdir (rstripSlashes c.workflow.my_out_dir),
           Eff.mkdir (parentDir c.sbatch.output),
           Eff.mkdir (parentDir c.sbatch.error)]) := by
  constructor
  · by_cases h0 : (enumerateBams (rstripSlashes c.workflow.my_in_dir) entries).length = 0
    · rw [generate_eq_empty c entries f h0]
      exact rfl
    · by_cases hq : (enumerateBams (rstripSlashes c.workflow.my_in_dir) entries).length >
          c.sbatch.max_queue
      · rw [generate_eq_overflow c entries f hq]
        exact rfl
      · rw [generate_eq_ok c entries f (by omega) (by omega)]
        exact rfl
  · intro e he
    by_cases h0 : (enumerateBams (rstripSlashes c.workflow.my_in_dir) entries).length = 0
    · rw [generate_eq_empty c entries f h0]
    · by_cases hq : (enumerateBams (rstripSlashes c.workflow.my_in_dir) entries).length >
          c.sbatch.max_queue
      · rw [generate_eq_overflow c entries f hq]
      · rw [generate_eq_ok c entries f (by omega) (by omega)] at he
        simp at he

/-- Witness for C9: on the overflow run the trace is exactly the three `mkdir`s
— directories were created even though the run failed. -/
theorem mkdirs_precede_validation_w :
    (generate sampleConfig entsFour "conf.yaml").effects =
      [Eff.mkdir "results", Eff.mkdir "logs", Eff.mkdir "logs"] := by
  have h := (mkdirs_precede_validation sampleConfig entsFour "conf.yaml").2
    (.queueOverflow 4 3)
    (by rw [generate_eq_overflow sampleConfig entsFour "conf.yaml" (by decide)]
        exact rfl)
  exact h

/-- C10: the `#SBATCH --account=` directive appears when and only when the
configured account is present and truthy — when it is absent or falsy, the
partition directive is immediately followed by an empty line and then the array
directive — while every other scheduler directive line appears unconditionally. -/
theorem account_conditional_others_unconditional (c : Config) (total : Nat)
    (lf : String) :
    (strTruthy c.sbatch.account = true →
      ∃ p s, renderScript c total lf =
        p ++ (("#SBATCH --account=" ++ c.sbatch.account.getD "" ++ "\n") ++ s))
    ∧ (strTruthy c.sbatch.account = false →
      ∃ p s, renderScript c total lf =
        p ++ ((partitionLine c ++ ("\n" ++ arrayLine c total)) ++ s))
    ∧ (∃ p s, renderScript c total lf = p ++ (jobNameLine c ++ s))
    ∧ (∃ p s, renderScript c total lf = p ++ (partitionLine c ++ s))
    ∧ (∃ p s, renderScript c total lf = p ++ (arrayLine c total ++ s))
    ∧ (∃ p s, renderScript c total lf = p ++ (timeLine c ++ s))
    ∧ (∃ p s, renderScript c total lf = p ++ (nodesLine c ++ s))
    ∧ (∃ p s, renderScript c total lf = p ++ (ntasksLine c ++ s))
    ∧ (∃ p s, renderScript c total lf = p ++ (cpusLine c ++ s))
    ∧ (∃ p s, renderScript c total lf = p ++ (memLine c ++ s))
    ∧ (∃ p s, renderScript c total lf = p ++ (outputLine c ++ s))
    ∧ (∃ p s, renderScript c total lf = p ++ (errorLine c ++ s))
    ∧ (∃ p s, renderScript c total lf = p ++ (mailUserLine c ++ s))
    ∧ (∃ p s, renderScript c total lf = p ++ (mailTypeLine c ++ s)) := by
  refine ⟨?_, ?_, ?_, ?_, ?_, ?_, ?_, ?_, ?_, ?_, ?_, ?_, ?_, ?_⟩
  · intro ht
    obtain ⟨p, s, hp⟩ := renderScript_split c total lf 3 (by rw [scriptChunks_length]; omega)
    have h3 : (scriptChunks c total lf).getD 3 "" = accountLine c := rfl
    rw [h3] at hp
    refine ⟨p, s, ?_⟩
    rw [hp]
    simp only [accountLine, ht, if_true, String.append_assoc]
  · intro hf
    have ha : accountLine c = "\n" := by
      simp only [accountLine, hf, Bool.false_eq_true, if_false, String.empty_append]
    have h2 := joinStr_split_at (scriptChunks c total lf) 2
      (by rw [scriptChunks_length]; omega)
    have hg : (scriptChunks c total lf).getD 2 "" = partitionLine c := rfl
    have hd : (scriptChunks c total lf).drop 3 =
        accountLine c :: arrayLine c total :: (scriptChunks c total lf).drop 5 := rfl
    rw [hg, hd, joinStr_cons, joinStr_cons, ha] at h2
    refine ⟨joinStr ((scriptChunks c total lf).take 2),
      joinStr ((scriptChunks c total lf).drop 5), ?_⟩
    rw [renderScript, h2]
    simp only [String.append_assoc]
  · exact renderScript_split c total lf 1 (by rw [scriptChunks_length]; omega)
  · exact renderScript_split c total lf 2 (by rw [scriptChunks_length]; omega)
  · exact renderScript_split c total lf 4 (by rw [scriptChunks_length]; omega)
  · exact renderScript_split c total lf 5 (by rw [scriptChunks_length]; omega)
  · exact renderScript_split c total lf 6 (by rw [scriptChunks_length]; omega)
  · exact renderScript_split c total lf 7 (by rw [scriptChunks_length]; omega)
  · exact renderScript_split c total lf 8 (by rw [scriptChunks_length]; omega)
  · exact renderScript_split c total lf 9 (by rw [scriptChunks_length]; omega)
  · exact renderScript_split c total lf 10 (by rw [scriptChunks_length]; omega)
  · exact renderScript_split c total lf 11 (by rw [scriptChunks_length]; omega)
  · exact renderScript_split c total lf 12 (by rw [scriptChunks_length]; omega)
  · exact renderScript_split c total lf 13 (by rw [scriptChunks_length]; omega)

/-- Witness for C10: with account `lab` the account directive is rendered; with
no account the partition directive is followed by an empty line and then the
array directive. -/
theorem account_conditional_others_unconditional_w :
    (∃ p s, renderScript sampleConfigAcct 5 "results/conf.lst" =
      p ++ ("#SBATCH --account=lab\n" ++ s))
    ∧ (∃ p s, renderScript sampleConfig 5 "results/conf.lst" =
      p ++ ((partitionLine sampleConfig ++ ("\n" ++ arrayLine sampleConfig 5)) ++ s)) := by
  constructor
  · exact (account_conditional_others_unconditional sampleConfigAcct 5
      "results/conf.lst").1 (by decide)
  · exact (account_conditional_others_unconditional sampleConfig 5
      "results/conf.lst").2.1 (by decide)

end Ichor
